import Mathlib

/-!
Shallow embedding of the nova authentication manager
(src/nova/auth/manager.py) and proofs of the specification claims.

The embedding models:
  - the data objects `User` and `Project` (src lines 106-229);
  - the policy checks `has_role`, `is_superuser`, `is_admin`,
    `is_project_manager`, `is_project_member` (src lines 426-501, 598-608);
  - `add_role` / `remove_role` (src lines 503-541);
  - `authenticate` (src lines 345-424);
  - `get_credentials` (src lines 750-785);
  - the VPN port pool `Vpn.find_free_port_for_ip` / `Vpn.num_ports_for_ip`
    and the port-returning step of `Vpn.destroy` (src lines 264-310).

External collaborators (the identity-store driver, the signer, the crypto
module, template rendering) are parameters of an `Env` record: the claims
under verification depend only on how `manager.py` consumes their results.
The redis-backed key-value store (nova/datastore.py, not part of the
sources under verification) is modelled from the specification, see
`KVState` below.

Error classes: `exception.NotFound` is `NovaError.notFound`,
`exception.NotAuthorized` is `NovaError.notAuthorized` (the error the
specification names AuthenticationFailed), the generic `exception.Error`
is `NovaError.error` (the specification names its two relevant uses
InvalidArgument and ConfigurationError), and `NoMorePorts` is
`NovaError.noMorePorts` (the specification names it PoolExhausted).
-/

/-- A user record, mirroring `User.__init__` (src lines 106-113). -/
structure User where
  id : String
  name : String
  access : String
  secret : String
  admin : Bool
deriving DecidableEq

/-- A project record, mirroring `Project.__init__` (src lines 183-190).
`member_ids` is the membership list handed back by the driver. -/
structure Project where
  id : String
  name : String
  project_manager_id : String
  description : String
  member_ids : List String
deriving DecidableEq

/-- The exception classes raised by the code under verification. -/
inductive NovaError where
  | notFound (msg : String)
  | notAuthorized (msg : String)
  | error (msg : String)
  | noMorePorts
deriving DecidableEq

/-- The vpn datastore record consulted by `get_credentials`
(ip and port of an existing allocation). -/
structure VpnData where
  ip : String
  port : Nat
deriving DecidableEq

/-- The credential bundle assembled by `get_credentials`: the five entries
written into the zip archive (src lines 775-779). -/
structure CredBundle where
  rc : String
  privateKey : String
  signedCert : String
  vpnConfig : String
  caCert : String
deriving DecidableEq

/-- A call delegated to the identity-store driver by `add_role` or
`remove_role`: `(uid, role, project_id_or_none)` exactly as passed on
src lines 521 and 541. -/
inductive StoreCall where
  | addRole (uid role : String) (pid : Option String)
  | removeRole (uid role : String) (pid : Option String)
deriving DecidableEq

/-- The environment: configuration flags and the external collaborators
(identity-store driver reads, signer, crypto, template rendering) that
`manager.py` consumes. Each field abstracts one external call site. -/
structure Env where
  superuser_roles : List String
  global_roles : List String
  drvHasRole : String → String → Option String → Bool
  userByAccessKey : String → Option User
  getProject : String → Option Project
  s3Sign : String → List (String × String) → String → String → String
  ec2Sign : String → List (String × String) → String → String → String → String
  vpnLookup : String → Option VpnData
  generate_rc : String → String → String → String
  certSubject : String → String
  generateX509Cert : String → String × String
  signCsr : String → String → String
  fetchCA : String → String
  renderVpnConfig : String → Nat → String

/-- Python truthiness of the `True`-or-`None` values returned by
`is_superuser` and `is_admin`: `None` is falsy. -/
def truthy : Option Bool → Bool
  | some b => b
  | none => false

/-- `AuthManager.is_project_manager` (src lines 598-602): compares the
user id with the project manager id. -/
def is_project_manager (user : User) (project : Project) : Bool :=
  decide (user.id = project.project_manager_id)

/-- `AuthManager.is_project_member` (src lines 604-608): membership test
of the user id in the project member list. -/
def is_project_member (user : User) (project : Project) : Bool :=
  decide (user.id ∈ project.member_ids)

/-- `AuthManager.has_role` (src lines 461-501). For role
"projectmanager": requires a project (else raises
`exception.Error("Must specify project")`) and delegates to
`is_project_manager`. Otherwise: queries the driver for the global-scope
grant, returns it when it is false, or when no project was given, or when
the role is one of the configured global roles; else returns the
project-scoped driver result. -/
def has_role (env : Env) (user : User) (role : String) (project : Option Project) :
    Except NovaError Bool :=
  if role = "projectmanager" then
    match project with
    | none => Except.error (NovaError.error "Must specify project")
    | some p => Except.ok (is_project_manager user p)
  else
    let global_role := env.drvHasRole user.id role none
    if global_role = false then Except.ok global_role
    else
      match project with
      | none => Except.ok global_role
      | some p =>
        if role ∈ env.global_roles then Except.ok global_role
        else Except.ok (env.drvHasRole user.id role (some p.id))

/-- The `for role in FLAGS...: if self.has_role(user, role): return True`
loops of `is_superuser` (src lines 440-442) and `is_admin` (src lines
457-459): first granted role returns `True`; falling off the end of the
loop (and the function) returns `None`. -/
def roleLoop (env : Env) (user : User) : List String → Except NovaError (Option Bool)
  | [] => Except.ok none
  | r :: rs =>
    match has_role env user r none with
    | Except.error e => Except.error e
    | Except.ok b => if b = true then Except.ok (some true) else roleLoop env user rs

/-- `AuthManager.is_superuser` (src lines 426-442): the admin flag grants
superuser immediately; otherwise the configured superuser roles are
scanned. Result type `Option Bool` captures that the Python function
returns `True` or falls off the end returning `None`. -/
def is_superuser (env : Env) (user : User) : Except NovaError (Option Bool) :=
  if user.admin = true then Except.ok (some true)
  else roleLoop env user env.superuser_roles

/-- `AuthManager.is_admin` (src lines 444-459): superusers are admins;
otherwise the configured global roles are scanned. Returns `True` or
falls off the end returning `None`. -/
def is_admin (env : Env) (user : User) : Except NovaError (Option Bool) :=
  match is_superuser env user with
  | Except.error e => Except.error e
  | Except.ok su =>
    if truthy su = true then Except.ok (some true)
    else roleLoop env user env.global_roles

/-- `AuthManager.add_role` (src lines 503-521): the body unconditionally
delegates `(uid, role, Project.safe_id(project))` to the driver; there is
no check of the role name, so the result is the store call made. -/
def add_role (user : User) (role : String) (project : Option Project) : StoreCall :=
  StoreCall.addRole user.id role (project.map Project.id)

/-- `AuthManager.remove_role` (src lines 523-541): the body
unconditionally delegates to the driver, like `add_role`. -/
def remove_role (user : User) (role : String) (project : Option Project) : StoreCall :=
  StoreCall.removeRole user.id role (project.map Project.id)

/-- Splits a character list at the first occurrence of `c`; `none` when
`c` does not occur. Helper for `strPartition`. -/
def splitAtChar (c : Char) : List Char → Option (List Char × List Char)
  | [] => none
  | x :: xs =>
    if x = c then some ([], xs)
    else match splitAtChar c xs with
      | none => none
      | some (l, r) => some (x :: l, r)

/-- Python `str.partition`: `access.partition(':')` on src line 385,
returning the part before the first `c` and the part after it (the whole
string and "" when `c` does not occur). -/
def strPartition (s : String) (c : Char) : String × String :=
  match splitAtChar c s.data with
  | none => (s, "")
  | some (l, r) => (String.mk l, String.mk r)

/-- The project id resolved by `authenticate` (src lines 394-397): the
part of `access` after the first colon, defaulting to the user name when
that part is empty. -/
def resolved_project_id (access : String) (user : User) : String :=
  if (strPartition access ':').2 = "" then user.name
  else (strPartition access ':').2

/-- The signature-checking tail of `authenticate` (src lines 407-424):
for check type "s3" or "ec2" the expected signature is recomputed from
the user secret and compared for exact string equality, a mismatch
raising `exception.NotAuthorized("Signature does not match")`; any other
check type skips verification and returns `(user, project)`. -/
def check_signature (env : Env) (user : User) (project : Project)
    (signature : String) (params : List (String × String))
    (verb server_string path check_type : String)
    (headers : List (String × String)) : Except NovaError (User × Project) :=
  if check_type = "s3" then
    if signature ≠ env.s3Sign user.secret headers verb path then
      Except.error (NovaError.notAuthorized "Signature does not match")
    else Except.ok (user, project)
  else if check_type = "ec2" then
    if signature ≠ env.ec2Sign user.secret params verb server_string path then
      Except.error (NovaError.notAuthorized "Signature does not match")
    else Except.ok (user, project)
  else Except.ok (user, project)

/-- `AuthManager.authenticate` (src lines 345-424): splits the access
string, resolves the user by access key (`NotFound` when absent),
resolves the project (`NotFound` when absent), rejects with `NotFound`
when the user is neither admin nor a project member, then runs the
signature check. -/
def authenticate (env : Env) (access signature : String)
    (params : List (String × String))
    (verb server_string path check_type : String)
    (headers : List (String × String)) : Except NovaError (User × Project) :=
  let access_key := (strPartition access ':').1
  match env.userByAccessKey access_key with
  | none =>
    Except.error (NovaError.notFound ("No user found for access key " ++ access_key))
  | some user =>
    match env.getProject (resolved_project_id access user) with
    | none =>
      Except.error (NovaError.notFound
        ("No project called " ++ resolved_project_id access user ++ " could be found"))
    | some project =>
      match is_admin env user with
      | Except.error e => Except.error e
      | Except.ok a =>
        if truthy a = false ∧ is_project_member user project = false then
          Except.error (NovaError.notFound
            ("User " ++ user.id ++ " is not a member of project " ++ project.id))
        else
          check_signature env user project signature params verb server_string path
            check_type headers

/-- `AuthManager._generate_x509_cert` (src lines 801-807): generates a
key and csr from the cert subject and has the csr signed for the
project. -/
def generate_x509_cert (env : Env) (uid pid : String) : String × String :=
  let pair := env.generateX509Cert (env.certSubject uid)
  (pair.1, env.signCsr pair.2 pid)

/-- `AuthManager.get_credentials` (src lines 750-785), with the project
supplied as an object: renders the rc file, generates the certificate,
then looks up the vpn allocation for the project and raises
`exception.Error("No vpn data allocated for project ...")` when none
exists; otherwise assembles the five-entry bundle. -/
def get_credentials (env : Env) (user : User) (project : Project) :
    Except NovaError CredBundle :=
  let pid := project.id
  let rc := env.generate_rc user.access user.secret pid
  let pair := generate_x509_cert env user.id pid
  match env.vpnLookup pid with
  | none =>
    Except.error (NovaError.error ("No vpn data allocated for project " ++ project.name))
  | some vpn =>
    Except.ok
      { rc := rc
      , privateKey := pair.1
      , signedCert := pair.2
      , vpnConfig := env.renderVpnConfig vpn.ip vpn.port
      , caCert := env.fetchCA user.id }

/-- Modelled from the spec: the key-value store consumed by the port
pool (nova/datastore.py is not among the sources under verification).
Per the interface of section 6 it offers atomic set operations
`exists`, `setAdd`, `setPop` and `setCardinality`; per the invariant of
section 3 the free-pool is "materialized at most once", so `exists` on
the per-ip port-set key reports whether the key has ever been created.
`pools ip = none` means the key was never created; `pools ip = some l`
means it holds the members `l` (no duplicates). `assocExists ip` models
existence of the BasicModel association key checked on src line 277. -/
structure KVState where
  pools : String → Option (List Nat)
  assocExists : String → Bool

/-- Replaces the port set of `ip` with `l`. -/
def setPool (st : KVState) (ip : String) (l : List Nat) : KVState :=
  { st with pools := fun i => if i = ip then some l else st.pools i }

/-- Set insertion for the member list backing a redis set: a no-op when
the member is already present. -/
def listSadd (l : List Nat) (n : Nat) : List Nat :=
  if n ∈ l then l else l ++ [n]

/-- `redis.sadd` on the port-set key of `ip` (src lines 279 and 309). -/
def kvSadd (st : KVState) (ip : String) (n : Nat) : KVState :=
  setPool st ip (listSadd ((st.pools ip).getD []) n)

/-- The seed list `range(vpn_start_port, vpn_end_port + 1)` of src line
278: every integer of the inclusive range `[startPort, endPort]`. -/
def seedList (startPort endPort : Nat) : List Nat :=
  List.range' startPort (endPort + 1 - startPort)

/-- The materialization step of `Vpn.find_free_port_for_ip` (src lines
276-279): when neither the port-set key nor the ip association exists,
add every port of the configured range to the set. -/
def materialize (startPort endPort : Nat) (st : KVState) (ip : String) : KVState :=
  if (st.pools ip).isSome = true ∨ st.assocExists ip = true then st
  else (seedList startPort endPort).foldl (fun s i => kvSadd s ip i) st

/-- `Vpn.find_free_port_for_ip` (src lines 264-284): materializes the
pool on first use, then pops one member of the set, raising
`NoMorePorts` when the pop returns nothing. -/
def find_free_port_for_ip (startPort endPort : Nat) (st : KVState) (ip : String) :
    Except NovaError (Nat × KVState) :=
  let st1 := materialize startPort endPort st ip
  match (st1.pools ip).getD [] with
  | [] => Except.error NovaError.noMorePorts
  | p :: rest => Except.ok (p, setPool st1 ip rest)

/-- `Vpn.num_ports_for_ip` (src lines 286-289): `scard` of the port-set
key, 0 when the key does not exist. -/
def num_ports_for_ip (st : KVState) (ip : String) : Nat :=
  ((st.pools ip).getD []).length

/-- The port-returning step of `Vpn.destroy` (src line 309): `sadd` of
the released port back into the free set of its ip. -/
def release (st : KVState) (ip : String) (port : Nat) : KVState :=
  kvSadd st ip port

/-- Repeated allocate-then-release: each round pops one port with
`find_free_port_for_ip` and immediately returns it with `release`,
collecting the ports handed out. -/
def allocReleaseIter (startPort endPort : Nat) (st : KVState) (ip : String) :
    Nat → Except NovaError (List Nat × KVState)
  | 0 => Except.ok ([], st)
  | Nat.succ k =>
    match find_free_port_for_ip startPort endPort st ip with
    | Except.error e => Except.error e
    | Except.ok (p, st2) =>
      match allocReleaseIter startPort endPort (release st2 ip p) ip k with
      | Except.error e => Except.error e
      | Except.ok (ps, stf) => Except.ok (p :: ps, stf)

/-- A sample user for witness instantiations. -/
def sampleUser : User :=
  { id := "u1", name := "u1", access := "AK1", secret := "SK1", admin := false }

/-- A sample admin user for witness instantiations. -/
def sampleAdmin : User :=
  { id := "a1", name := "a1", access := "AK9", secret := "SK9", admin := true }

/-- A second sample user, not a member of `sampleProject`. -/
def sampleUser2 : User :=
  { id := "u2", name := "u2", access := "AK2", secret := "SK2", admin := false }

/-- A sample project managed by `sampleUser`, with `sampleUser` as its
only member. -/
def sampleProject : Project :=
  { id := "p1", name := "p1", project_manager_id := "u1", description := "d"
  , member_ids := ["u1"] }

/-- A sample environment with the default role flags of src lines 45-51
and no role grants, no vpn allocations. -/
def sampleEnv : Env :=
  { superuser_roles := ["cloudadmin"]
  , global_roles := ["cloudadmin", "itsec"]
  , drvHasRole := fun _ _ _ => false
  , userByAccessKey := fun k =>
      if k = "AK1" then some sampleUser
      else if k = "AK2" then some sampleUser2 else none
  , getProject := fun p => if p = "p1" then some sampleProject else none
  , s3Sign := fun _ _ _ _ => "S3SIG"
  , ec2Sign := fun _ _ _ _ _ => "EC2SIG"
  , vpnLookup := fun _ => none
  , generate_rc := fun _ _ _ => "rc"
  , certSubject := fun u => u
  , generateX509Cert := fun _ => ("pk", "csr")
  , signCsr := fun _ _ => "cert"
  , fetchCA := fun _ => "ca"
  , renderVpnConfig := fun _ _ => "cfg" }

/-- A sample environment in which the driver grants the global role
"itsec" to `sampleUser` but no project-scoped grant. -/
def sampleEnvGlobalItsec : Env :=
  { sampleEnv with drvHasRole :=
      fun uid role scope => decide (uid = "u1" ∧ role = "itsec" ∧ scope = none) }

/-- A sample key-value state: the pool of ip "10.0.0.1" is materialized
with the two ports 1000 and 1001. -/
def sampleKV : KVState :=
  { pools := fun i => if i = "10.0.0.1" then some [1000, 1001] else none
  , assocExists := fun _ => false }

/-- A sample fresh key-value state: no pool materialized, no
associations. -/
def freshKV : KVState :=
  { pools := fun _ => none, assocExists := fun _ => false }

/-- Decidable equality of `Except` results, used to evaluate the
embedded operations at concrete inputs. -/
instance {e a : Type} [DecidableEq e] [DecidableEq a] : DecidableEq (Except e a) := fun x y =>
  match x, y with
  | Except.ok v, Except.ok w =>
    if h : v = w then isTrue (by rw [h]) else isFalse (by intro hh; cases hh; exact h rfl)
  | Except.error v, Except.error w =>
    if h : v = w then isTrue (by rw [h]) else isFalse (by intro hh; cases hh; exact h rfl)
  | Except.ok _, Except.error _ => isFalse (by intro hh; cases hh)
  | Except.error _, Except.ok _ => isFalse (by intro hh; cases hh)

/-- With no project argument and a role other than "projectmanager",
`has_role` returns exactly the global-scope driver answer. -/
theorem has_role_none_eq (env : Env) (u : User) (role : String)
    (hpm : role ≠ "projectmanager") :
    has_role env u role none = Except.ok (env.drvHasRole u.id role none) := by
  unfold has_role
  rw [if_neg hpm]
  cases h : env.drvHasRole u.id role none <;> simp [h]

/-- A scan of roles none of which is "projectmanager" and none of which
is granted at global scope falls off the end of the loop. -/
theorem roleLoop_none (env : Env) (u : User) :
    ∀ rs : List String,
      (∀ r ∈ rs, r ≠ "projectmanager" ∧ env.drvHasRole u.id r none = false) →
      roleLoop env u rs = Except.ok none := by
  intro rs
  induction rs with
  | nil => intro _; rfl
  | cons r rs ih =>
    intro h
    have hr := h r (List.mem_cons_self r rs)
    unfold roleLoop
    rw [has_role_none_eq env u r hr.1, hr.2]
    simp only [Bool.false_eq_true, if_false]
    exact ih (fun x hx => h x (List.mem_cons_of_mem r hx))

/-- After user, project and the admin check are resolved, `authenticate`
reduces to the membership gate followed by the signature check. -/
theorem authenticate_resolved (env : Env) (access signature : String)
    (params : List (String × String))
    (verb server_string path check_type : String)
    (headers : List (String × String)) (user : User) (project : Project)
    (a : Option Bool)
    (huser : env.userByAccessKey (strPartition access ':').1 = some user)
    (hproj : env.getProject (resolved_project_id access user) = some project)
    (ha : is_admin env user = Except.ok a) :
    authenticate env access signature params verb server_string path check_type headers =
      if truthy a = false ∧ is_project_member user project = false then
        Except.error (NovaError.notFound
          ("User " ++ user.id ++ " is not a member of project " ++ project.id))
      else
        check_signature env user project signature params verb server_string path
          check_type headers := by
  simp only [authenticate, huser, hproj, ha]

/-- C1: for a role other than "projectmanager", `has_role` returns false
whenever the driver holds no global-scope grant, whatever project-scoped
grants exist (the result holds for every driver, in particular those with
a project-scoped grant); when the global grant exists, it returns the
global result when no project is given or the role is a configured
global role, and the project-scoped driver result otherwise. -/
theorem hasRole_global_gate (env : Env) (u : User) (role : String) (t : Project)
    (hpm : role ≠ "projectmanager") :
    (env.drvHasRole u.id role none = false →
        has_role env u role (some t) = Except.ok false) ∧
    (env.drvHasRole u.id role none = true →
        has_role env u role none = Except.ok true ∧
        (role ∈ env.global_roles → has_role env u role (some t) = Except.ok true) ∧
        (role ∉ env.global_roles →
            has_role env u role (some t) =
              Except.ok (env.drvHasRole u.id role (some t.id)))) := by
  constructor
  · intro hg
    unfold has_role
    rw [if_neg hpm]
    simp [hg]
  · intro hg
    refine ⟨?_, ?_, ?_⟩
    · rw [has_role_none_eq env u role hpm, hg]
    · intro hglob
      unfold has_role
      rw [if_neg hpm]
      simp [hg, hglob]
    · intro hglob
      unfold has_role
      rw [if_neg hpm]
      simp [hg, hglob]

/-- C1 witness: instantiation at `sampleEnvGlobalItsec`, `sampleUser`,
role "itsec" and `sampleProject`. -/
theorem hasRole_global_gate_witness :
    ("itsec" : String) ≠ "projectmanager" ∧
    ((sampleEnvGlobalItsec.drvHasRole sampleUser.id "itsec" none = false →
        has_role sampleEnvGlobalItsec sampleUser "itsec" (some sampleProject) =
          Except.ok false) ∧
     (sampleEnvGlobalItsec.drvHasRole sampleUser.id "itsec" none = true →
        has_role sampleEnvGlobalItsec sampleUser "itsec" none = Except.ok true ∧
        ("itsec" ∈ sampleEnvGlobalItsec.global_roles →
            has_role sampleEnvGlobalItsec sampleUser "itsec" (some sampleProject) =
              Except.ok true) ∧
        ("itsec" ∉ sampleEnvGlobalItsec.global_roles →
            has_role sampleEnvGlobalItsec sampleUser "itsec" (some sampleProject) =
              Except.ok (sampleEnvGlobalItsec.drvHasRole sampleUser.id "itsec"
                (some sampleProject.id))))) :=
  ⟨by decide, hasRole_global_gate sampleEnvGlobalItsec sampleUser "itsec" sampleProject
      (by decide)⟩

/-- C4: contrary to the claim (and to the docstrings on src lines 509 and
529, which state that the "projectmanager" role "can't be added or
removed"), `add_role` and `remove_role` perform no check of the role
name: for every user and project argument they delegate the call,
role "projectmanager" included, to the identity-store driver and raise
nothing. -/
theorem addRole_removeRole_delegate_projectmanager (u : User) (p : Project) :
    add_role u "projectmanager" (some p) =
      StoreCall.addRole u.id "projectmanager" (some p.id) ∧
    remove_role u "projectmanager" (some p) =
      StoreCall.removeRole u.id "projectmanager" (some p.id) ∧
    add_role u "projectmanager" none = StoreCall.addRole u.id "projectmanager" none ∧
    remove_role u "projectmanager" none =
      StoreCall.removeRole u.id "projectmanager" none :=
  ⟨rfl, rfl, rfl, rfl⟩

/-- C5: `has_role` with role "projectmanager" and a project returns
exactly the comparison of the user id with the project manager id, for
every environment (hence consulting no role grants: the result does not
depend on `drvHasRole`); with no project it raises
`exception.Error("Must specify project")`, the error the specification
names InvalidArgument. -/
theorem hasRole_projectmanager_semantics (env : Env) (u : User) (t : Project) :
    has_role env u "projectmanager" (some t) =
      Except.ok (decide (u.id = t.project_manager_id)) ∧
    has_role env u "projectmanager" none =
      Except.error (NovaError.error "Must specify project") :=
  ⟨rfl, rfl⟩

/-- C8: a set admin flag makes both `is_superuser` and `is_admin` return
`True`, for every environment, i.e. regardless of role grants and of the
configured superuser and global role lists. -/
theorem admin_flag_superuser_admin (env : Env) (u : User) (h : u.admin = true) :
    is_superuser env u = Except.ok (some true) ∧
    is_admin env u = Except.ok (some true) := by
  have hsu : is_superuser env u = Except.ok (some true) := by
    unfold is_superuser
    rw [h]
    simp
  refine ⟨hsu, ?_⟩
  unfold is_admin
  rw [hsu]
  simp [truthy]

/-- C8 witness: instantiation at `sampleEnv` and `sampleAdmin`. -/
theorem admin_flag_superuser_admin_witness :
    sampleAdmin.admin = true ∧
    (is_superuser sampleEnv sampleAdmin = Except.ok (some true) ∧
     is_admin sampleEnv sampleAdmin = Except.ok (some true)) :=
  ⟨by decide, admin_flag_superuser_admin sampleEnv sampleAdmin (by decide)⟩

/-- C9: when no vpn allocation exists for the project,
`get_credentials` raises `exception.Error("No vpn data allocated for
project ...")` (the error the specification names ConfigurationError);
the `Except.error` result carries no bundle, so no partial bundle is
returned. -/
theorem get_credentials_requires_vpn (env : Env) (u : User) (p : Project)
    (h : env.vpnLookup p.id = none) :
    get_credentials env u p =
      Except.error (NovaError.error ("No vpn data allocated for project " ++ p.name)) := by
  simp only [get_credentials, h]

/-- C9 witness: instantiation at `sampleEnv` (no vpn allocations),
`sampleUser` and `sampleProject`. -/
theorem get_credentials_requires_vpn_witness :
    sampleEnv.vpnLookup sampleProject.id = none ∧
    get_credentials sampleEnv sampleUser sampleProject =
      Except.error (NovaError.error
        ("No vpn data allocated for project " ++ sampleProject.name)) :=
  ⟨by decide, get_credentials_requires_vpn sampleEnv sampleUser sampleProject (by decide)⟩

/-- C10: for a user with the admin flag clear holding none of the
configured superuser roles, `is_superuser` falls off the end of the
function and returns `None` (not the boolean `False`); likewise
`is_admin` returns `None` when additionally none of the configured
global roles is held. The role lists are assumed not to contain
"projectmanager" (a global check of that role name would raise
instead of returning). -/
theorem is_superuser_is_admin_return_none (env : Env) (u : User)
    (hadm : u.admin = false)
    (hsu : ∀ r ∈ env.superuser_roles,
        r ≠ "projectmanager" ∧ env.drvHasRole u.id r none = false)
    (hgl : ∀ r ∈ env.global_roles,
        r ≠ "projectmanager" ∧ env.drvHasRole u.id r none = false) :
    is_superuser env u = Except.ok none ∧ is_admin env u = Except.ok none := by
  have h1 : is_superuser env u = Except.ok none := by
    unfold is_superuser
    rw [hadm]
    simp only [Bool.false_eq_true, if_false]
    exact roleLoop_none env u env.superuser_roles hsu
  refine ⟨h1, ?_⟩
  unfold is_admin
  rw [h1]
  simp only [truthy, Bool.false_eq_true, if_false]
  exact roleLoop_none env u env.global_roles hgl

/-- C10 witness: instantiation at `sampleEnv` (superuser roles
["cloudadmin"], global roles ["cloudadmin", "itsec"], no grants) and
`sampleUser`. -/
theorem is_superuser_is_admin_return_none_witness :
    sampleUser.admin = false ∧
    (∀ r ∈ sampleEnv.superuser_roles,
        r ≠ "projectmanager" ∧ sampleEnv.drvHasRole sampleUser.id r none = false) ∧
    (∀ r ∈ sampleEnv.global_roles,
        r ≠ "projectmanager" ∧ sampleEnv.drvHasRole sampleUser.id r none = false) ∧
    (is_superuser sampleEnv sampleUser = Except.ok none ∧
     is_admin sampleEnv sampleUser = Except.ok none) :=
  ⟨by decide, by decide, by decide,
    is_superuser_is_admin_return_none sampleEnv sampleUser (by decide) (by decide)
      (by decide)⟩

/-- When the membership gate passes, `authenticate` reduces to the
signature-checking tail. -/
theorem authenticate_pass (env : Env) (access signature : String)
    (params : List (String × String))
    (verb server_string path check_type : String)
    (headers : List (String × String)) (user : User) (project : Project)
    (a : Option Bool)
    (huser : env.userByAccessKey (strPartition access ':').1 = some user)
    (hproj : env.getProject (resolved_project_id access user) = some project)
    (ha : is_admin env user = Except.ok a)
    (hmem : truthy a = true ∨ is_project_member user project = true) :
    authenticate env access signature params verb server_string path check_type headers =
      check_signature env user project signature params verb server_string path
        check_type headers := by
  rw [authenticate_resolved env access signature params verb server_string path
    check_type headers user project a huser hproj ha]
  rcases hmem with h | h
  · rw [if_neg (by simp [h])]
  · rw [if_neg (by simp [h])]

/-- C3: once the principal and the project are resolved and the admin
check evaluates, `authenticate` proceeds to the signature check exactly
when the user is admin or a member of the project; when neither holds it
fails with `exception.NotFound` — the `NovaError.notFound` constructor,
the same error class raised for an unknown access key or an unknown
project, not a distinct forbidden error. -/
theorem authenticate_membership_gate (env : Env) (access signature : String)
    (params : List (String × String))
    (verb server_string path check_type : String)
    (headers : List (String × String)) (user : User) (project : Project)
    (a : Option Bool)
    (huser : env.userByAccessKey (strPartition access ':').1 = some user)
    (hproj : env.getProject (resolved_project_id access user) = some project)
    (ha : is_admin env user = Except.ok a) :
    ((truthy a = false ∧ is_project_member user project = false) →
        authenticate env access signature params verb server_string path check_type
            headers =
          Except.error (NovaError.notFound
            ("User " ++ user.id ++ " is not a member of project " ++ project.id))) ∧
    ((truthy a = true ∨ is_project_member user project = true) →
        authenticate env access signature params verb server_string path check_type
            headers =
          check_signature env user project signature params verb server_string path
            check_type headers) := by
  constructor
  · intro h
    rw [authenticate_resolved env access signature params verb server_string path
      check_type headers user project a huser hproj ha]
    rw [if_pos h]
  · intro h
    exact authenticate_pass env access signature params verb server_string path
      check_type headers user project a huser hproj ha h

/-- C3 witness: instantiation at `sampleEnv` with access "AK2:p1":
`sampleUser2` is neither admin nor a member of `sampleProject`. -/
theorem authenticate_membership_gate_witness :
    sampleEnv.userByAccessKey (strPartition "AK2:p1" ':').1 = some sampleUser2 ∧
    sampleEnv.getProject (resolved_project_id "AK2:p1" sampleUser2) =
      some sampleProject ∧
    is_admin sampleEnv sampleUser2 = Except.ok none ∧
    (((truthy none = false ∧ is_project_member sampleUser2 sampleProject = false) →
        authenticate sampleEnv "AK2:p1" "sig" [] "GET" "s" "/" "ec2" [] =
          Except.error (NovaError.notFound
            ("User " ++ sampleUser2.id ++ " is not a member of project " ++
              sampleProject.id))) ∧
     ((truthy none = true ∨ is_project_member sampleUser2 sampleProject = true) →
        authenticate sampleEnv "AK2:p1" "sig" [] "GET" "s" "/" "ec2" [] =
          check_signature sampleEnv sampleUser2 sampleProject "sig" [] "GET" "s" "/"
            "ec2" [])) :=
  ⟨by decide, by decide, by decide,
    authenticate_membership_gate sampleEnv "AK2:p1" "sig" [] "GET" "s" "/" "ec2" []
      sampleUser2 sampleProject none (by decide) (by decide) (by decide)⟩

/-- C2: given that user, project and membership checks pass,
`authenticate` fails with `exception.NotAuthorized` (the error the
specification names AuthenticationFailed) exactly when the check type is
"s3" or "ec2" and the supplied signature differs, by string equality,
from the expected signature recomputed from the user secret; for every
other check type, verification is skipped and the pair is returned. -/
theorem authenticate_signature_check (env : Env) (access signature : String)
    (params : List (String × String))
    (verb server_string path check_type : String)
    (headers : List (String × String)) (user : User) (project : Project)
    (a : Option Bool)
    (huser : env.userByAccessKey (strPartition access ':').1 = some user)
    (hproj : env.getProject (resolved_project_id access user) = some project)
    (ha : is_admin env user = Except.ok a)
    (hmem : truthy a = true ∨ is_project_member user project = true) :
    ((∃ msg, authenticate env access signature params verb server_string path
          check_type headers = Except.error (NovaError.notAuthorized msg)) ↔
      ((check_type = "s3" ∧ signature ≠ env.s3Sign user.secret headers verb path) ∨
       (check_type = "ec2" ∧
          signature ≠ env.ec2Sign user.secret params verb server_string path))) ∧
    (check_type ≠ "s3" → check_type ≠ "ec2" →
      authenticate env access signature params verb server_string path check_type
          headers =
        Except.ok (user, project)) := by
  have hauth := authenticate_pass env access signature params verb server_string path
    check_type headers user project a huser hproj ha hmem
  rw [hauth]
  constructor
  · constructor
    · rintro ⟨msg, hmsg⟩
      unfold check_signature at hmsg
      by_cases h3 : check_type = "s3"
      · rw [if_pos h3] at hmsg
        by_cases hs : signature = env.s3Sign user.secret headers verb path
        · rw [if_neg (by simp [hs])] at hmsg
          exact Except.noConfusion hmsg
        · exact Or.inl ⟨h3, hs⟩
      · rw [if_neg h3] at hmsg
        by_cases h2 : check_type = "ec2"
        · rw [if_pos h2] at hmsg
          by_cases hs : signature = env.ec2Sign user.secret params verb server_string path
          · rw [if_neg (by simp [hs])] at hmsg
            exact Except.noConfusion hmsg
          · exact Or.inr ⟨h2, hs⟩
        · rw [if_neg h2] at hmsg
          exact Except.noConfusion hmsg
    · intro hor
      refine ⟨"Signature does not match", ?_⟩
      unfold check_signature
      rcases hor with ⟨h3, hs⟩ | ⟨h2, hs⟩
      · rw [if_pos h3, if_pos hs]
      · have h3 : check_type ≠ "s3" := by rw [h2]; decide
        rw [if_neg h3, if_pos h2, if_pos hs]
  · intro h3 h2
    unfold check_signature
    rw [if_neg h3, if_neg h2]

/-- C2 witness: instantiation at `sampleEnv` with access "AK1:p1" and a
wrong signature under check type "ec2". -/
theorem authenticate_signature_check_witness :
    sampleEnv.userByAccessKey (strPartition "AK1:p1" ':').1 = some sampleUser ∧
    sampleEnv.getProject (resolved_project_id "AK1:p1" sampleUser) =
      some sampleProject ∧
    is_admin sampleEnv sampleUser = Except.ok none ∧
    (truthy none = true ∨ is_project_member sampleUser sampleProject = true) ∧
    (((∃ msg, authenticate sampleEnv "AK1:p1" "bad" [] "GET" "s" "/" "ec2" [] =
          Except.error (NovaError.notAuthorized msg)) ↔
        (("ec2" = "s3" ∧ ("bad" : String) ≠ sampleEnv.s3Sign sampleUser.secret [] "GET" "/") ∨
         ("ec2" = "ec2" ∧
            ("bad" : String) ≠ sampleEnv.ec2Sign sampleUser.secret [] "GET" "s" "/"))) ∧
     (("ec2" : String) ≠ "s3" → ("ec2" : String) ≠ "ec2" →
        authenticate sampleEnv "AK1:p1" "bad" [] "GET" "s" "/" "ec2" [] =
          Except.ok (sampleUser, sampleProject))) :=
  ⟨by decide, by decide, by decide, by decide,
    authenticate_signature_check sampleEnv "AK1:p1" "bad" [] "GET" "s" "/" "ec2" []
      sampleUser sampleProject none (by decide) (by decide) (by decide) (by decide)⟩

/-- Reading back the pool just written by `setPool`. -/
theorem setPool_at (st : KVState) (ip : String) (l : List Nat) :
    (setPool st ip l).pools ip = some l := by
  simp [setPool]

/-- Materialization is a no-op once the port-set key exists. -/
theorem materialize_isSome (startPort endPort : Nat) (st : KVState) (ip : String)
    (h : (st.pools ip).isSome = true) :
    materialize startPort endPort st ip = st := by
  unfold materialize
  rw [if_pos (Or.inl h)]

/-- Allocation from a materialized nonempty pool pops its first member. -/
theorem find_free_port_cons (startPort endPort : Nat) (st : KVState) (ip : String)
    (p : Nat) (rest : List Nat) (h : st.pools ip = some (p :: rest)) :
    find_free_port_for_ip startPort endPort st ip =
      Except.ok (p, setPool st ip rest) := by
  have hm : materialize startPort endPort st ip = st :=
    materialize_isSome startPort endPort st ip (by rw [h]; rfl)
  simp only [find_free_port_for_ip, hm, h, Option.getD_some]

/-- Allocation from a materialized empty pool raises `NoMorePorts`. -/
theorem find_free_port_exhausted (startPort endPort : Nat) (st : KVState) (ip : String)
    (h : st.pools ip = some []) :
    find_free_port_for_ip startPort endPort st ip =
      Except.error NovaError.noMorePorts := by
  have hm : materialize startPort endPort st ip = st :=
    materialize_isSome startPort endPort st ip (by rw [h]; rfl)
  simp only [find_free_port_for_ip, hm, h, Option.getD_some]

/-- Releasing a port absent from the current pool appends it. -/
theorem release_setPool (st : KVState) (ip : String) (rest : List Nat) (p : Nat)
    (hp : p ∉ rest) :
    (release (setPool st ip rest) ip p).pools ip = some (rest ++ [p]) := by
  simp [release, kvSadd, setPool, listSadd, hp]

/-- Invariant of the allocate-then-release loop: starting from a
materialized pool whose members all lie in `l0`, have no duplicates and
number as many as `l0`, any number of rounds succeeds, preserves those
facts, and hands out only members of `l0`. -/
theorem allocReleaseIter_inv (startPort endPort : Nat) (ip : String) (l0 : List Nat) :
    ∀ (k : Nat) (st : KVState) (l : List Nat),
      st.pools ip = some l → l.Nodup → l.length = l0.length → (∀ x ∈ l, x ∈ l0) →
      l0 ≠ [] →
      ∃ ports stf lf,
        allocReleaseIter startPort endPort st ip k = Except.ok (ports, stf) ∧
        stf.pools ip = some lf ∧ lf.length = l0.length ∧
        ports.length = k ∧ (∀ p ∈ ports, p ∈ l0) := by
  intro k
  induction k with
  | zero =>
    intro st l h hnd hlen hsub hne
    exact ⟨[], st, l, rfl, h, hlen, rfl, fun p hp => absurd hp (List.not_mem_nil p)⟩
  | succ k ih =>
    intro st l h hnd hlen hsub hne
    cases l with
    | nil =>
      exfalso
      cases l0 with
      | nil => exact hne rfl
      | cons a as => simp at hlen
    | cons p rest =>
      have hpnotin : p ∉ rest := (List.nodup_cons.mp hnd).1
      have hrestnd : rest.Nodup := (List.nodup_cons.mp hnd).2
      have hfind := find_free_port_cons startPort endPort st ip p rest h
      have hrel : (release (setPool st ip rest) ip p).pools ip = some (rest ++ [p]) :=
        release_setPool st ip rest p hpnotin
      have hnd2 : (rest ++ [p]).Nodup := by
        rw [List.nodup_append]
        refine ⟨hrestnd, List.nodup_singleton p, ?_⟩
        intro x hx hxp
        rw [List.mem_singleton.mp hxp] at hx
        exact hpnotin hx
      have hlen2 : (rest ++ [p]).length = l0.length := by
        simp only [List.length_append, List.length_singleton]
        simp only [List.length_cons] at hlen
        omega
      have hsub2 : ∀ x ∈ rest ++ [p], x ∈ l0 := by
        intro x hx
        apply hsub
        rcases List.mem_append.mp hx with hm | hm
        · exact List.mem_cons_of_mem p hm
        · rw [List.mem_singleton.mp hm]
          exact List.mem_cons_self p rest
      obtain ⟨ports, stf, lf, hiter, hpool, hlf, hplen, hports⟩ :=
        ih (release (setPool st ip rest) ip p) (rest ++ [p]) hrel hnd2 hlen2 hsub2 hne
      refine ⟨p :: ports, stf, lf, ?_, hpool, hlf, ?_, ?_⟩
      · simp only [allocReleaseIter, hfind, hiter]
      · simp [hplen]
      · intro q hq
        rcases List.mem_cons.mp hq with hq | hq
        · rw [hq]
          exact hsub p (List.mem_cons_self p rest)
        · exact hports q hq

/-- C6: on a materialized pool (members `l`, no duplicates), a
successful allocation hands out a member of the pool, and releasing that
port restores `num_ports_for_ip` to its pre-allocation value; for a
nonempty pool, any number of allocate-then-release rounds succeeds (the
pop never returns empty, so `NoMorePorts` is never raised), ends with
the original count, and every port handed out is drawn from the pool
(at each allocation the port is popped from the then-current free set,
and with at most one allocation outstanding no port is held twice). -/
theorem port_pool_alloc_release_roundtrip (startPort endPort : Nat) (st : KVState)
    (ip : String) (l : List Nat) (h : st.pools ip = some l) (hnd : l.Nodup) :
    (∀ p st2, find_free_port_for_ip startPort endPort st ip = Except.ok (p, st2) →
        p ∈ l ∧ num_ports_for_ip (release st2 ip p) ip = num_ports_for_ip st ip) ∧
    (l ≠ [] → ∀ k, ∃ ports stf,
        allocReleaseIter startPort endPort st ip k = Except.ok (ports, stf) ∧
        num_ports_for_ip stf ip = num_ports_for_ip st ip ∧
        ports.length = k ∧ ∀ p ∈ ports, p ∈ l) := by
  constructor
  · intro p st2 hok
    cases l with
    | nil =>
      rw [find_free_port_exhausted startPort endPort st ip h] at hok
      exact Except.noConfusion hok
    | cons q rest =>
      rw [find_free_port_cons startPort endPort st ip q rest h] at hok
      have hq : q = p := congrArg Prod.fst (Except.ok.inj hok)
      have hst : setPool st ip rest = st2 := congrArg Prod.snd (Except.ok.inj hok)
      subst hq
      subst hst
      have hpn : q ∉ rest := (List.nodup_cons.mp hnd).1
      refine ⟨List.mem_cons_self q rest, ?_⟩
      simp [num_ports_for_ip, release_setPool st ip rest q hpn, h]
  · intro hne k
    obtain ⟨ports, stf, lf, hiter, hpool, hlf, hplen, hports⟩ :=
      allocReleaseIter_inv startPort endPort ip l k st l h hnd rfl (fun x hx => hx) hne
    refine ⟨ports, stf, hiter, ?_, hplen, hports⟩
    simp [num_ports_for_ip, hpool, hlf, h]

/-- C6 witness: instantiation at `sampleKV`, whose pool for ip
"10.0.0.1" holds the two ports 1000 and 1001. -/
theorem port_pool_alloc_release_roundtrip_witness :
    sampleKV.pools "10.0.0.1" = some [1000, 1001] ∧
    ([1000, 1001] : List Nat).Nodup ∧
    ((∀ p st2,
        find_free_port_for_ip 1000 1001 sampleKV "10.0.0.1" = Except.ok (p, st2) →
        p ∈ ([1000, 1001] : List Nat) ∧
        num_ports_for_ip (release st2 "10.0.0.1" p) "10.0.0.1" =
          num_ports_for_ip sampleKV "10.0.0.1") ∧
     (([1000, 1001] : List Nat) ≠ [] → ∀ k, ∃ ports stf,
        allocReleaseIter 1000 1001 sampleKV "10.0.0.1" k = Except.ok (ports, stf) ∧
        num_ports_for_ip stf "10.0.0.1" = num_ports_for_ip sampleKV "10.0.0.1" ∧
        ports.length = k ∧ ∀ p ∈ ports, p ∈ ([1000, 1001] : List Nat))) :=
  ⟨by decide, by decide,
    port_pool_alloc_release_roundtrip 1000 1001 sampleKV "10.0.0.1" [1000, 1001]
      (by decide) (by decide)⟩

/-- Folding `sadd` over fresh distinct members appends them all. -/
theorem foldSadd_some :
    ∀ (l : List Nat) (st : KVState) (ip : String) (acc : List Nat),
      st.pools ip = some acc → l.Nodup → (∀ x ∈ l, x ∉ acc) →
      ((l.foldl (fun s2 i => kvSadd s2 ip i) st).pools ip) = some (acc ++ l) := by
  intro l
  induction l with
  | nil =>
    intro st ip acc h _ _
    simpa using h
  | cons x xs ih =>
    intro st ip acc h hnd hdis
    have hxacc : x ∉ acc := hdis x (List.mem_cons_self x xs)
    have hx : (kvSadd st ip x).pools ip = some (acc ++ [x]) := by
      simp [kvSadd, setPool, h, listSadd, hxacc]
    have hdis2 : ∀ y ∈ xs, y ∉ acc ++ [x] := by
      intro y hy hmem
      rcases List.mem_append.mp hmem with hm | hm
      · exact hdis y (List.mem_cons_of_mem x hy) hm
      · rw [List.mem_singleton.mp hm] at hy
        exact (List.nodup_cons.mp hnd).1 hy
    have hres := ih (kvSadd st ip x) ip (acc ++ [x]) hx (List.nodup_cons.mp hnd).2 hdis2
    simp only [List.foldl_cons]
    rw [hres]
    simp

/-- First-use materialization seeds the pool with exactly the configured
range. -/
theorem materialize_fresh (startPort endPort : Nat) (st : KVState) (ip : String)
    (hp : st.pools ip = none) (ha : st.assocExists ip = false)
    (hle : startPort ≤ endPort) :
    (materialize startPort endPort st ip).pools ip =
      some (seedList startPort endPort) := by
  unfold materialize
  rw [if_neg (by simp [hp, ha])]
  have hseed : seedList startPort endPort =
      startPort :: List.range' (startPort + 1) (endPort - startPort) := by
    unfold seedList
    have hn : endPort + 1 - startPort = (endPort - startPort) + 1 := by omega
    rw [hn, List.range'_succ]
  rw [hseed]
  simp only [List.foldl_cons]
  have h1 : (kvSadd st ip startPort).pools ip = some [startPort] := by
    simp [kvSadd, setPool, hp, listSadd]
  have hnd : (List.range' (startPort + 1) (endPort - startPort)).Nodup :=
    List.nodup_range' _ _
  have hdis : ∀ x ∈ List.range' (startPort + 1) (endPort - startPort),
      x ∉ ([startPort] : List Nat) := by
    intro x hx hmem
    rw [List.mem_singleton.mp hmem] at hx
    have := (List.mem_range'_1.mp hx).1
    omega
  have hres := foldSadd_some (List.range' (startPort + 1) (endPort - startPort))
    (kvSadd st ip startPort) ip [startPort] h1 hnd hdis
  rw [hres]
  simp

/-- C7: on first use (no pool key, no ip association) the pool is
seeded with exactly the integers of the inclusive configured range; with
the range [1000, 1000] the first allocation succeeds returning port
1000 and the second allocation, before any release, raises
`NoMorePorts` (the error the specification names PoolExhausted). -/
theorem port_pool_seed_and_exhaustion (st : KVState) (ip : String)
    (startPort endPort : Nat)
    (hp : st.pools ip = none) (ha : st.assocExists ip = false)
    (hle : startPort ≤ endPort) :
    ((materialize startPort endPort st ip).pools ip =
        some (seedList startPort endPort) ∧
     ∀ n, n ∈ seedList startPort endPort ↔ startPort ≤ n ∧ n ≤ endPort) ∧
    (startPort = 1000 → endPort = 1000 →
      ∃ st2, find_free_port_for_ip 1000 1000 st ip = Except.ok (1000, st2) ∧
        find_free_port_for_ip 1000 1000 st2 ip =
          Except.error NovaError.noMorePorts) := by
  constructor
  · refine ⟨materialize_fresh startPort endPort st ip hp ha hle, ?_⟩
    intro n
    unfold seedList
    rw [List.mem_range'_1]
    omega
  · intro h1 h2
    subst h1
    subst h2
    have hmat : (materialize 1000 1000 st ip).pools ip = some [1000] := by
      rw [materialize_fresh 1000 1000 st ip hp ha (le_refl 1000)]
      rfl
    refine ⟨setPool (materialize 1000 1000 st ip) ip [], ?_, ?_⟩
    · have hm2 : materialize 1000 1000 (materialize 1000 1000 st ip) ip =
          materialize 1000 1000 st ip :=
        materialize_isSome 1000 1000 _ ip (by rw [hmat]; rfl)
      simp only [find_free_port_for_ip, hm2, hmat, Option.getD_some]
    · exact find_free_port_exhausted 1000 1000 _ ip
        (setPool_at (materialize 1000 1000 st ip) ip [])

/-- C7 witness: instantiation at the fresh state `freshKV` with the
range [1000, 1000]. -/
theorem port_pool_seed_and_exhaustion_witness :
    freshKV.pools "ip" = none ∧ freshKV.assocExists "ip" = false ∧
    (1000 : Nat) ≤ 1000 ∧
    (((materialize 1000 1000 freshKV "ip").pools "ip" =
        some (seedList 1000 1000) ∧
      ∀ n, n ∈ seedList 1000 1000 ↔ 1000 ≤ n ∧ n ≤ 1000) ∧
     ((1000 : Nat) = 1000 → (1000 : Nat) = 1000 →
      ∃ st2, find_free_port_for_ip 1000 1000 freshKV "ip" = Except.ok (1000, st2) ∧
        find_free_port_for_ip 1000 1000 st2 "ip" =
          Except.error NovaError.noMorePorts)) :=
  ⟨by decide, by decide, by decide,
    port_pool_seed_and_exhaustion freshKV "ip" 1000 1000 (by decide) (by decide)
      (by decide)⟩
